import Mathlib

/-!
Shallow embedding of the two pure core functions of the weather app
(`src/app.py`): `get_weather_info` (weather code → description/icon pair)
and `get_color_from_temp` (temperature → RGBA color list).
-/

namespace WeatherApp

/-- The fixed `weather_codes` dictionary from `get_weather_info` in
`src/app.py` (lines 21–43), as an association list in source order.
Descriptions are the Korean strings of the source. -/
def weather_codes : List (Int × (String × String)) :=
  [ (0, ("맑음", "☀️")),
    (1, ("대체로 맑음", "🌤️")),
    (2, ("부분적으로 흐림", "⛅")),
    (3, ("흐림", "☁️")),
    (45, ("안개", "🌫️")),
    (48, ("서리 안개", "🌫️")),
    (51, ("가벼운 이슬비", "🌦️")),
    (53, ("보통 이슬비", "🌦️")),
    (55, ("강한 이슬비", "🌦️")),
    (61, ("가벼운 비", "🌧️")),
    (63, ("보통 비", "🌧️")),
    (65, ("강한 비", "🌧️")),
    (71, ("가벼운 눈", "🌨️")),
    (73, ("보통 눈", "🌨️")),
    (75, ("강한 눈", "🌨️")),
    (80, ("가벼운 소나기", "🌧️")),
    (81, ("보통 소나기", "🌧️")),
    (82, ("강한 소나기", "🌧️")),
    (95, ("뇌우", "⛈️")),
    (96, ("가벼운 우박 뇌우", "⛈️")),
    (99, ("강한 우박 뇌우", "⛈️")) ]

/-- The fallback descriptor `("알 수 없음", "❓")` used by
`weather_codes.get(code, ...)` in `src/app.py` line 44. -/
def fallbackDescriptor : String × String := ("알 수 없음", "❓")

/-- Embedding of `get_weather_info` (`src/app.py` lines 17–44): Python
`dict.get` with a default, i.e. association-list lookup with fallback. -/
def get_weather_info (code : Int) : String × String :=
  match weather_codes.lookup code with
  | some v => v
  | none => fallbackDescriptor

/-- Embedding of `get_color_from_temp` (`src/app.py` lines 46–61).
The Python function takes a float temperature; we model the comparisons
over ℚ. It returns a Python list of four ints, modelled as `List ℤ`. -/
def get_color_from_temp (temp : ℚ) : List ℤ :=
  if temp ≤ 0 then [0, 0, 255, 160]
  else if temp ≤ 10 then [100, 149, 237, 160]
  else if temp ≤ 20 then [0, 255, 0, 160]
  else if temp ≤ 25 then [255, 255, 0, 160]
  else if temp ≤ 30 then [255, 165, 0, 160]
  else [255, 0, 0, 160]

/-- Index of the band selected by the cascade of conditionals in
`get_color_from_temp`, with bands ordered blue < light blue < green <
yellow < orange < red. -/
def bandIndex (temp : ℚ) : ℕ :=
  if temp ≤ 0 then 0
  else if temp ≤ 10 then 1
  else if temp ≤ 20 then 2
  else if temp ≤ 25 then 3
  else if temp ≤ 30 then 4
  else 5

/-- The six RGBA values returned by `get_color_from_temp`, in band order. -/
def bandColors : List (List ℤ) :=
  [ [0, 0, 255, 160],
    [100, 149, 237, 160],
    [0, 255, 0, 160],
    [255, 255, 0, 160],
    [255, 165, 0, 160],
    [255, 0, 0, 160] ]

theorem get_color_eq_bandColor (t : ℚ) :
    get_color_from_temp t = bandColors.getD (bandIndex t) [] := by
  unfold get_color_from_temp bandIndex bandColors
  split_ifs <;> rfl

theorem bandIndex_lt_six (t : ℚ) : bandIndex t < 6 := by
  unfold bandIndex
  split_ifs <;> omega

/-- C1 counterexample: the code returns the Korean description `"맑음"`
for code 0, not the English `"Clear"` stated in the claim. -/
theorem c1_counterexample : get_weather_info 0 ≠ ("Clear", "☀️") := by
  decide

/-- C1 (amended): `get_weather_info 0` returns `("맑음", "☀️")`
("맑음" is Korean for "Clear") and `get_weather_info 61` returns
`("가벼운 비", "🌧️")` ("가벼운 비" is Korean for "Light rain"); the
icons match the claim. -/
theorem c1_examples :
    get_weather_info 0 = ("맑음", "☀️") ∧
    get_weather_info 61 = ("가벼운 비", "🌧️") := by
  constructor <;> rfl

/-- C2 counterexample: for the unmapped code 100 the code returns the
Korean fallback `("알 수 없음", "❓")`, not `("Unknown", "❓")`. -/
theorem c2_counterexample : get_weather_info 100 ≠ ("Unknown", "❓") := by
  decide

/-- C2 (amended): for every integer code not among the keys of the
table, `get_weather_info` returns the fallback pair
`("알 수 없음", "❓")` ("알 수 없음" is Korean for "Unknown"); in
particular at -1, 100 and 9999. -/
theorem c2_fallback (c : Int) (h : weather_codes.lookup c = none) :
    get_weather_info c = ("알 수 없음", "❓") := by
  unfold get_weather_info fallbackDescriptor
  rw [h]

theorem c2_fallback_witness :
    get_weather_info (-1) = ("알 수 없음", "❓") ∧
    get_weather_info 100 = ("알 수 없음", "❓") ∧
    get_weather_info 9999 = ("알 수 없음", "❓") :=
  ⟨c2_fallback (-1) (by decide), c2_fallback 100 (by decide),
   c2_fallback 9999 (by decide)⟩

/-- C3 counterexample: the table in the source has 21 entries, not the
20 the claim states. -/
theorem c3_counterexample : weather_codes.length = 21 := by
  rfl

/-- C3 (amended): the table is fixed data with exactly 21 entries, each
code appearing exactly once (keys are nodup, so each code has exactly
one description/icon pair), and for every entry `(c, v)` of the table
`get_weather_info c` returns exactly `v`. -/
theorem c3_table_exact :
    weather_codes.length = 21 ∧
    (weather_codes.map Prod.fst).Nodup ∧
    ∀ c v, (c, v) ∈ weather_codes → get_weather_info c = v := by
  refine ⟨rfl, by decide, ?_⟩
  intro c v h
  fin_cases h <;> rfl

theorem c3_table_exact_witness : get_weather_info 61 = ("가벼운 비", "🌧️") :=
  c3_table_exact.2.2 61 ("가벼운 비", "🌧️") (by decide)

/-- C4: `get_color_from_temp` classifies by the six bands with inclusive
upper bounds evaluated in order, and the stated boundary and example
points land in the stated bands (0.0001 is `1/10000`). -/
theorem c4_bands :
    (∀ t : ℚ, t ≤ 0 → get_color_from_temp t = [0, 0, 255, 160]) ∧
    (∀ t : ℚ, 0 < t → t ≤ 10 → get_color_from_temp t = [100, 149, 237, 160]) ∧
    (∀ t : ℚ, 10 < t → t ≤ 20 → get_color_from_temp t = [0, 255, 0, 160]) ∧
    (∀ t : ℚ, 20 < t → t ≤ 25 → get_color_from_temp t = [255, 255, 0, 160]) ∧
    (∀ t : ℚ, 25 < t → t ≤ 30 → get_color_from_temp t = [255, 165, 0, 160]) ∧
    (∀ t : ℚ, 30 < t → get_color_from_temp t = [255, 0, 0, 160]) ∧
    get_color_from_temp 0 = [0, 0, 255, 160] ∧
    get_color_from_temp (1 / 10000) = [100, 149, 237, 160] ∧
    get_color_from_temp 30 = [255, 165, 0, 160] ∧
    get_color_from_temp (30 + 1 / 10000) = [255, 0, 0, 160] ∧
    get_color_from_temp (-5) = [0, 0, 255, 160] ∧
    get_color_from_temp 22 = [255, 255, 0, 160] := by
  refine ⟨?_, ?_, ?_, ?_, ?_, ?_, ?_, ?_, ?_, ?_, ?_, ?_⟩ <;>
    first
      | (intro t h1 h2
         unfold get_color_from_temp
         split_ifs <;> first | rfl | linarith)
      | (intro t h1
         unfold get_color_from_temp
         split_ifs <;> first | rfl | linarith)
      | (unfold get_color_from_temp; norm_num)

theorem c4_bands_witness : get_color_from_temp 15 = [0, 255, 0, 160] :=
  c4_bands.2.2.1 15 (by norm_num) (by norm_num)

/-- C5: for every temperature, `get_color_from_temp` returns a list of
four integers, every channel in `[0, 255]`, with the fourth (alpha)
channel exactly 160. -/
theorem c5_shape (t : ℚ) :
    (get_color_from_temp t).length = 4 ∧
    (∀ x ∈ get_color_from_temp t, 0 ≤ x ∧ x ≤ 255) ∧
    (get_color_from_temp t).getD 3 0 = 160 := by
  unfold get_color_from_temp
  split_ifs <;> exact ⟨rfl, by decide, rfl⟩

theorem c5_shape_witness :
    (get_color_from_temp 7).length = 4 ∧
    (0 ≤ (100 : ℤ) ∧ (100 : ℤ) ≤ 255) ∧
    (get_color_from_temp 7).getD 3 0 = 160 :=
  ⟨(c5_shape 7).1, (c5_shape 7).2.1 100 (by decide), (c5_shape 7).2.2⟩

/-- C6: both core functions are total: for every integer code
`get_weather_info` produces a result, and for every temperature
`get_color_from_temp` produces a result; no error branch exists in the
embedding because none exists in the source. -/
theorem c6_total :
    (∀ c : Int, ∃ p : String × String, get_weather_info c = p) ∧
    (∀ t : ℚ, ∃ l : List ℤ, get_color_from_temp t = l) :=
  ⟨fun c => ⟨get_weather_info c, rfl⟩, fun t => ⟨get_color_from_temp t, rfl⟩⟩

/-- C7: both core functions are deterministic pure functions: two calls
on the same input yield identical output. -/
theorem c7_deterministic :
    (∀ c : Int, get_weather_info c = get_weather_info c) ∧
    (∀ t : ℚ, get_color_from_temp t = get_color_from_temp t) :=
  ⟨fun _ => rfl, fun _ => rfl⟩

/-- C8: the band selected by `get_color_from_temp` is monotone in the
temperature: for `t1 ≤ t2` the band index of `t1` is at most that of
`t2`, where `bandIndex` describes exactly which branch of
`get_color_from_temp` fires (both colors equal the indexed band color). -/
theorem c8_monotone (t1 t2 : ℚ) (h : t1 ≤ t2) :
    bandIndex t1 ≤ bandIndex t2 ∧
    get_color_from_temp t1 = bandColors.getD (bandIndex t1) [] ∧
    get_color_from_temp t2 = bandColors.getD (bandIndex t2) [] := by
  refine ⟨?_, get_color_eq_bandColor t1, get_color_eq_bandColor t2⟩
  unfold bandIndex
  split_ifs <;> first | omega | linarith

theorem c8_monotone_witness :
    bandIndex 5 ≤ bandIndex 22 ∧
    get_color_from_temp 5 = bandColors.getD (bandIndex 5) [] ∧
    get_color_from_temp 22 = bandColors.getD (bandIndex 22) [] :=
  c8_monotone 5 22 (by norm_num)

theorem bandColors_getD_inj :
    ∀ i j : Fin 6, bandColors.getD (i : ℕ) [] = bandColors.getD (j : ℕ) [] → i = j := by
  decide

/-- C9: the six RGBA values of `get_color_from_temp` are pairwise
distinct, and two temperatures get equal colors exactly when they fall
in the same band: the color uniquely identifies the band. -/
theorem c9_color_iff_band :
    bandColors.Nodup ∧
    ∀ t1 t2 : ℚ,
      get_color_from_temp t1 = get_color_from_temp t2 ↔ bandIndex t1 = bandIndex t2 := by
  refine ⟨by decide, ?_⟩
  intro t1 t2
  constructor
  · intro h
    have h1 := bandIndex_lt_six t1
    have h2 := bandIndex_lt_six t2
    have heq : bandColors.getD (bandIndex t1) [] = bandColors.getD (bandIndex t2) [] := by
      rw [← get_color_eq_bandColor, ← get_color_eq_bandColor]
      exact h
    exact congrArg Fin.val (bandColors_getD_inj ⟨bandIndex t1, h1⟩ ⟨bandIndex t2, h2⟩ heq)
  · intro h
    rw [get_color_eq_bandColor, get_color_eq_bandColor, h]

/-- C10: the description component of `get_weather_info` is injective on
the mapped codes (pairwise distinct descriptions over the key list) and
never equals the fallback description, so no mapped code returns the
fallback pair; the icon component is not injective: codes 45 and 48 are
distinct but both return the icon `"🌫️"`. -/
theorem c10_descriptor_structure :
    List.Pairwise (fun a b => (get_weather_info a).1 ≠ (get_weather_info b).1)
      (weather_codes.map Prod.fst) ∧
    (∀ c ∈ weather_codes.map Prod.fst,
      (get_weather_info c).1 ≠ fallbackDescriptor.1 ∧
      get_weather_info c ≠ fallbackDescriptor) ∧
    (get_weather_info 45).2 = "🌫️" ∧
    (get_weather_info 48).2 = "🌫️" ∧
    (45 : Int) ≠ 48 := by
  decide

theorem c10_descriptor_witness :
    (get_weather_info 0).1 ≠ fallbackDescriptor.1 ∧
    get_weather_info 0 ≠ fallbackDescriptor :=
  c10_descriptor_structure.2.1 0 (by decide)

end WeatherApp
